import Mathlib

/-!
Shallow embedding of the book-cataloguing backend
(Express controllers in src/backend, Mongoose models).

Modelling conventions:
* JavaScript numbers (grades, averages) are embedded as exact rationals ℚ;
  floating-point rounding of the host runtime is not modelled.
* The MongoDB collections are embedded as Lean lists in natural storage
  order; findOne / updateOne / deleteOne act on the first matching element.
* A request body field that may be absent or not a number is an Option.
* throwErr (src/backend/utils/errorHandler.js) builds an Error object
  carrying a statusCode; the boundary middleware (src/backend/app.js,
  lines 76-83) turns it into the HTTP status and message. The best-effort
  unlink of an uploaded file inside throwErr is file-system bookkeeping
  and is outside the model.
-/

namespace P7

/-- One entry of a book's ratings array (models ratingSchema in
src/backend/models/Book.js): the rater's userId and the grade. -/
structure Rating where
  userId : String
  grade : ℚ
deriving Repr, DecidableEq

/-- A persisted book record (models bookSchema in src/backend/models/Book.js).
The Mongo document key is the field id (written _id in the source). -/
structure Book where
  id : String
  userId : String
  title : String
  author : String
  imageUrl : String
  year : Int
  genre : String
  ratings : List Rating
  averageRating : ℚ
deriving Repr, DecidableEq

/-- A persisted user record (models userSchema in src/unnamed/part_003):
email is unique, password holds the bcrypt hash. -/
structure User where
  id : String
  email : String
  password : String
deriving Repr, DecidableEq

/-- A JavaScript Error as the controllers build it: an optional statusCode
attached by throwErr, and the message string (every JS Error has a
message; the empty string models a falsy message). -/
structure JsError where
  statusCode : Option Nat
  message : String
deriving Repr, DecidableEq

/-- Equality of controller results is decidable, so the model can be
evaluated on concrete requests. -/
instance {ε α : Type} [DecidableEq ε] [DecidableEq α] :
    DecidableEq (Except ε α) := fun x y =>
  match x, y with
  | .ok a, .ok b =>
    if h : a = b then isTrue (by rw [h]) else isFalse (by simp [h])
  | .error a, .error b =>
    if h : a = b then isTrue (by rw [h]) else isFalse (by simp [h])
  | .ok _, .error _ => isFalse (by simp)
  | .error _, .ok _ => isFalse (by simp)

/-- src/backend/utils/errorHandler.js, throwErr: attach a statusCode and
a message to a fresh Error (the thrown part is the Except.error path of
each controller below). -/
def throwErr (statusCode : Nat) (message : String) : JsError :=
  { statusCode := some statusCode, message := message }

/-- src/backend/app.js lines 76-83, the boundary error middleware:
status = error.statusCode || 500, message = error.message || a generic
message; the response is (status, body message). A statusCode of 0 is
falsy in JavaScript, hence also defaults to 500. -/
def errorMiddleware (error : JsError) : Nat × String :=
  let status := match error.statusCode with
    | some n => if n = 0 then 500 else n
    | none => 500
  let message := if error.message = "" then "Erreur serveur" else error.message
  (status, message)

/-- JavaScript Math.round: round to the nearest integer, ties toward +∞,
i.e. Math.round(x) = ⌊x + 1/2⌋ for every finite x. -/
def mathRound (x : ℚ) : ℤ := ⌊x + 1 / 2⌋

/-- Math.round(average * 10) / 10 — rounding to one decimal place as done
in rateBook (src/backend/controllers/book.js line 427). -/
def roundTenth (x : ℚ) : ℚ := (mathRound (x * 10) : ℚ) / 10

/-- Book.findOne({ _id: id }) on the embedded collection. -/
def findOne (books : List Book) (id : String) : Option Book :=
  books.find? (fun b => b.id == id)

/-- Replace the first record matching the given id (the single-document
write performed by book.save() on a fetched document or by
Book.updateOne({ _id: id }, ...)). -/
def replaceFirst (books : List Book) (id : String) (b : Book) : List Book :=
  match books with
  | [] => []
  | x :: rest => if x.id == id then b :: rest else x :: replaceFirst rest id b

/-- The error messages used by the book controller. -/
def gradeMsg : String := "La note doit être comprise entre 0 et 5"

def notFoundMsg : String := "Livre non trouvé"

def alreadyRatedMsg : String := "Vous avez déjà noté ce livre"

def forbiddenMsg : String := "Requête non autorisée"

/-- The sum the reduce in rateBook computes:
ratings.reduce((acc, curr) => acc + curr.grade, 0). -/
def gradeSum (rs : List Rating) : ℚ :=
  rs.foldl (fun acc curr => acc + curr.grade) 0

/-- src/backend/controllers/book.js lines 398-439, rateBook:
validate the grade, fetch the book, reject a second vote from the same
user, append the new rating, recompute the rounded average and save.
Returns the updated collection and the updated book (the 200 response
body); errors are the thrown JsError. The rating argument is none when
req.body.rating is not a number. -/
def rateBook (books : List Book) (paramId authUserId : String)
    (rating : Option ℚ) : Except JsError (List Book × Book) :=
  match rating with
  | none => .error (throwErr 400 gradeMsg)
  | some grade =>
    if grade < 0 ∨ grade > 5 then .error (throwErr 400 gradeMsg)
    else
      match findOne books paramId with
      | none => .error (throwErr 404 notFoundMsg)
      | some book =>
        if (book.ratings.find? (fun r => r.userId == authUserId)).isSome then
          .error (throwErr 400 alreadyRatedMsg)
        else
          let newRatings :=
            book.ratings ++ [{ userId := authUserId, grade := grade }]
          let average := gradeSum newRatings / (newRatings.length : ℚ)
          let updated := { book with
            ratings := newRatings
            averageRating := roundTenth average }
          .ok (replaceFirst books paramId updated, updated)

/-- The parsed JSON body of a create request (req.body.book after
JSON.parse, with the _id and userId keys already irrelevant because
createBook deletes them). ratings is the client-sent ratings array,
keeping only each entry's grade; none stands for a grade that is not a
number; the empty list covers both an absent and an empty array (the
Array.isArray check and the length check treat them alike). -/
structure CreateBody where
  title : String
  author : String
  year : Int
  genre : String
  ratings : List (Option ℚ)
deriving Repr, DecidableEq

/-- src/backend/controllers/book.js lines 187-252, createBook:
drop client _id / userId / ratings / averageRating, seed a single rating
from ratings[0].grade when it is a number in (0, 5] (otherwise silently
seed nothing), stamp the authenticated userId and the server-built image
URL, and append the new record. The image pipeline (Sharp, unlink) only
produces imageUrl and is outside the model; newId is the _id Mongo
assigns at save. Returns the new collection and the created record (the
201 response acknowledges without returning the record). -/
def createBook (books : List Book) (authUserId newId imageUrl : String)
    (body : CreateBody) : List Book × Book :=
  let seed : List Rating × ℚ :=
    match body.ratings with
    | [] => ([], 0)
    | firstRating :: _ =>
      match firstRating with
      | some g =>
        if 0 < g ∧ g ≤ 5 then ([{ userId := authUserId, grade := g }], g)
        else ([], 0)
      | none => ([], 0)
  let book : Book := {
    id := newId
    userId := authUserId
    title := body.title
    author := body.author
    imageUrl := imageUrl
    year := body.year
    genre := body.genre
    ratings := seed.1
    averageRating := seed.2 }
  (books ++ [book], book)

/-- The parsed body of an update request: every field is optional (an
absent field is simply not written by the $set-style updateOne). The
source deletes only bookObject.userId before the write; _id, ratings and
averageRating pass through if the client sent them (id here is the
body's _id field). When a new file is uploaded the server overwrites
imageUrl with the freshly generated URL, which is still just an imageUrl
field of this body. -/
structure UpdateBody where
  id : Option String
  userId : Option String
  title : Option String
  author : Option String
  imageUrl : Option String
  year : Option Int
  genre : Option String
  ratings : Option (List Rating)
  averageRating : Option ℚ
deriving Repr, DecidableEq

/-- The document written by Book.updateOne({ _id: paramId },
{ ...bookObject, _id: paramId }) in modifyBook (lines 323-327): each
body field present is applied to the stored record; userId was deleted
from the body beforehand, and _id is forced to the path parameter,
overriding any client-sent _id. -/
def applyUpdate (b : Book) (body : UpdateBody) (paramId : String) : Book :=
  { id := paramId
    userId := b.userId
    title := body.title.getD b.title
    author := body.author.getD b.author
    imageUrl := body.imageUrl.getD b.imageUrl
    year := body.year.getD b.year
    genre := body.genre.getD b.genre
    ratings := body.ratings.getD b.ratings
    averageRating := body.averageRating.getD b.averageRating }

/-- src/backend/controllers/book.js lines 266-336, modifyBook:
fetch the book (404 when absent), check ownership (403 when the
authenticated user is not the owner), then write the merged record with
_id forced to the path parameter. The image replacement branch only
changes body.imageUrl and is handled by the caller of this model. -/
def modifyBook (books : List Book) (paramId authUserId : String)
    (body : UpdateBody) : Except JsError (List Book) :=
  match findOne books paramId with
  | none => .error (throwErr 404 notFoundMsg)
  | some book =>
    if book.userId ≠ authUserId then .error (throwErr 403 forbiddenMsg)
    else .ok (replaceFirst books paramId (applyUpdate book body paramId))

/-- src/backend/controllers/book.js lines 350-383, deleteBook:
fetch the book (404 when absent), check ownership (403), then delete the
record with Book.deleteOne({ _id: paramId }). The best-effort image
unlink is outside the model. -/
def deleteBook (books : List Book) (paramId authUserId : String) :
    Except JsError (List Book) :=
  match findOne books paramId with
  | none => .error (throwErr 404 notFoundMsg)
  | some book =>
    if book.userId ≠ authUserId then .error (throwErr 403 forbiddenMsg)
    else .ok (books.eraseP (fun b => b.id == paramId))

/-- The descending comparison used by .sort({ averageRating: -1 }). -/
def byAverageDesc (a b : Book) : Prop :=
  b.averageRating ≤ a.averageRating

instance : DecidableRel byAverageDesc :=
  fun a b => inferInstanceAs (Decidable (b.averageRating ≤ a.averageRating))

instance : IsTotal Book byAverageDesc :=
  ⟨fun a b => le_total b.averageRating a.averageRating⟩

instance : IsTrans Book byAverageDesc :=
  ⟨fun _ _ _ h1 h2 => le_trans h2 h1⟩

/-- src/backend/controllers/book.js lines 164-174, getBestRatingBooks:
Book.find().sort({ averageRating: -1 }).limit(3). The sort is embedded
as a stable sort of the collection in natural storage order. -/
def getBestRatingBooks (books : List Book) : List Book :=
  (books.insertionSort byAverageDesc).take 3

/-- Model of bcrypt.hash(password, 10): a one-way digest, embedded as an
injective tagging function (collision-freeness of bcrypt is assumed; the
tag mirrors the modular-crypt prefix of a bcrypt hash with cost 10). -/
def bcryptHash (password : String) : String :=
  "$2b$10$" ++ password

/-- Model of bcrypt.compare(password, hash): true exactly when the hash
is the digest of the password. -/
def bcryptCompare (password hash : String) : Bool :=
  hash == bcryptHash password

/-- Model of jwt.sign({ userId }, secret, { expiresIn: 24h }): an opaque
bearer token bound to the userId. -/
def jwtSign (userId : String) : String :=
  "jwt." ++ userId

/-- The duplicate-key error MongoDB raises when the unique index on
users.email (userSchema, src/unnamed/part_003) rejects a second record:
a MongoServerError, which carries a message but no statusCode property. -/
def duplicateKeyError : JsError :=
  { statusCode := none
    message := "E11000 duplicate key error collection: users index: email_1 dup key" }

/-- src/backend/controllers/user.js lines 64-97, signup:
hash the password, build the user, save. The save is rejected by the
unique index when the email already exists; that error reaches
next(error) untouched. newId is the _id Mongo assigns at save. -/
def signup (users : List User) (newId email password : String) :
    Except JsError (List User) :=
  if users.any (fun u => u.email == email) then
    .error duplicateKeyError
  else
    .ok (users ++ [{ id := newId, email := email, password := bcryptHash password }])

def userNotFoundMsg : String := "Utilisateur non trouvé"

def wrongPasswordMsg : String := "Mot de passe incorrect"

/-- src/backend/controllers/user.js lines 110-145, login:
find the user by email (401 when absent), compare the password with the
stored hash (401 when it does not match), then answer with the userId
and a signed token. -/
def login (users : List User) (email password : String) :
    Except JsError (String × String) :=
  match users.find? (fun u => u.email == email) with
  | none => .error (throwErr 401 userNotFoundMsg)
  | some user =>
    if !(bcryptCompare password user.password) then
      .error (throwErr 401 wrongPasswordMsg)
    else
      .ok (user.id, jwtSign user.id)

/-- The observable HTTP response of a login attempt: 200 with the
userId/token pair on success, otherwise the response produced by the
boundary error middleware. -/
def loginResponse (users : List User) (email password : String) :
    Nat × String :=
  match login users email password with
  | .ok (userId, token) => (200, userId ++ ":" ++ token)
  | .error e => errorMiddleware e

/-- The observable HTTP response of a signup attempt. -/
def signupResponse (users : List User) (newId email password : String) :
    Nat × String :=
  match signup users newId email password with
  | .ok _ => (201, "Utilisateur créé !")
  | .error e => errorMiddleware e

/-- One client-triggered mutation of the book collection, as dispatched
by the routes: create, modify, rate or delete. -/
inductive Op where
  | create (authUserId newId imageUrl : String) (body : CreateBody)
  | modify (paramId authUserId : String) (body : UpdateBody)
  | rate (paramId authUserId : String) (rating : Option ℚ)
  | delete (paramId authUserId : String)
deriving Repr, DecidableEq

/-- Apply one operation to the stored collection; a thrown error leaves
the store untouched (the controller never wrote anything on those
paths). -/
def step (books : List Book) : Op → List Book
  | .create authUserId newId imageUrl body =>
    (createBook books authUserId newId imageUrl body).1
  | .modify paramId authUserId body =>
    match modifyBook books paramId authUserId body with
    | .ok st => st
    | .error _ => books
  | .rate paramId authUserId rating =>
    match rateBook books paramId authUserId rating with
    | .ok (st, _) => st
    | .error _ => books
  | .delete paramId authUserId =>
    match deleteBook books paramId authUserId with
    | .ok st => st
    | .error _ => books

/-- The collection reached from an empty store by a sequence of
operations. -/
def run (ops : List Op) : List Book :=
  ops.foldl step []

/-- A concrete stored book used as a witness input. -/
def demoBook : Book :=
  { id := "book1"
    userId := "owner1"
    title := "Vingt mille lieues sous les mers"
    author := "Jules Verne"
    imageUrl := "http://localhost:4000/images/optimized_1.jpg"
    year := 1870
    genre := "Aventure"
    ratings := [{ userId := "alice", grade := 4 }]
    averageRating := 4 }

/-- A one-book collection used as a witness input. -/
def demoBooks : List Book := [demoBook]

/-- An update body with no field present. -/
def emptyUpdate : UpdateBody :=
  { id := none, userId := none, title := none, author := none
    imageUrl := none, year := none, genre := none, ratings := none
    averageRating := none }

/-- A create body with no client rating. -/
def plainCreate : CreateBody :=
  { title := "Titre", author := "Auteur", year := 2000, genre := "Genre"
    ratings := [] }

/-- A stored book with the given id and averageRating and no ratings,
used to exercise the sorted query. -/
def demoAvg (i : String) (q : ℚ) : Book :=
  { id := i, userId := "owner1", title := "T", author := "A"
    imageUrl := "http://img", year := 2000, genre := "G"
    ratings := [], averageRating := q }

/-- A concrete user store with one signed-up user. -/
def demoUsers : List User :=
  [{ id := "u1", email := "alice@example.com"
     password := bcryptHash "correcthorse" }]

/-- The invariant the spec claims of every reachable record: the stored
averageRating is the rounded arithmetic mean of the grades, and 0 when
there are none. -/
abbrev avgInvariant (b : Book) : Prop :=
  b.averageRating =
    if b.ratings = [] then 0
    else roundTenth (gradeSum b.ratings / (b.ratings.length : ℚ))

/-- A grade that is an exact tenth (n/10 for an integer n), i.e. a value
the one-decimal rounding leaves unchanged. -/
def isTenth (g : ℚ) : Prop := ∃ n : ℤ, g = n / 10

/-- Operations that respect the average invariant: any rate or delete; a
create whose seeded grade (when one is seeded) is an exact tenth; a
modify whose body carries neither a ratings nor an averageRating field.
(modifyBook writes any client-sent ratings/averageRating unchecked, and
createBook stores an unrounded seed grade — see the counterexample.) -/
def avgSafe : Op → Prop
  | .create _ _ _ body =>
    ∀ g : ℚ, body.ratings.head? = some (some g) → isTenth g
  | .modify _ _ body => body.ratings = none ∧ body.averageRating = none
  | .rate _ _ _ => True
  | .delete _ _ => True

/-- Operations that respect rater uniqueness: any create, rate or
delete; a modify whose body does not carry a ratings field. -/
def ratersSafe : Op → Prop
  | .modify _ _ body => body.ratings = none
  | _ => True

/-- The run of the C1 counterexample: create a book, then have its owner
update it with a body carrying averageRating 3 (which modifyBook writes
through unchecked). -/
def injectAvgOps : List Op :=
  [Op.create "owner1" "bookX" "http://img" plainCreate,
   Op.modify "bookX" "owner1" { emptyUpdate with averageRating := some 3 }]

/-- The record the C1 counterexample run reaches. -/
def injectAvgBook : Book :=
  { id := "bookX", userId := "owner1", title := "Titre", author := "Auteur"
    imageUrl := "http://img", year := 2000, genre := "Genre"
    ratings := [], averageRating := 3 }

/-- The run of the C2 counterexample: create a book, then have its owner
update it with a body carrying two ratings by the same user. -/
def injectDupOps : List Op :=
  [Op.create "owner1" "bookY" "http://img" plainCreate,
   Op.modify "bookY" "owner1"
     { emptyUpdate with
       ratings :=
         some [{ userId := "alice", grade := 4 },
           { userId := "alice", grade := 5 }] }]

/-- The record the C2 counterexample run reaches. -/
def injectDupBook : Book :=
  { id := "bookY", userId := "owner1", title := "Titre", author := "Auteur"
    imageUrl := "http://img", year := 2000, genre := "Genre"
    ratings := [{ userId := "alice", grade := 4 },
      { userId := "alice", grade := 5 }]
    averageRating := 0 }

/-- C3: for every existing book and every authenticated identity other
than the owner, both the update and the delete operation fail with the
403 authorization error of the source and the stored collection is left
unchanged. -/
theorem nonOwner_modify_delete_forbidden (books : List Book)
    (paramId authUserId : String) (body : UpdateBody) (b : Book)
    (hfind : findOne books paramId = some b)
    (hown : b.userId ≠ authUserId) :
    modifyBook books paramId authUserId body
      = .error (throwErr 403 forbiddenMsg)
    ∧ deleteBook books paramId authUserId
      = .error (throwErr 403 forbiddenMsg)
    ∧ step books (Op.modify paramId authUserId body) = books
    ∧ step books (Op.delete paramId authUserId) = books := by
  have hm : modifyBook books paramId authUserId body
      = .error (throwErr 403 forbiddenMsg) := by
    simp [modifyBook, hfind, hown]
  have hd : deleteBook books paramId authUserId
      = .error (throwErr 403 forbiddenMsg) := by
    simp [deleteBook, hfind, hown]
  exact ⟨hm, hd, by simp [step, hm], by simp [step, hd]⟩

/-- C3 witness: a non-owner update and delete of the demo book are both
rejected with 403 and change nothing. -/
theorem nonOwner_modify_delete_forbidden_witness :
    modifyBook demoBooks "book1" "mallory" emptyUpdate
      = .error (throwErr 403 forbiddenMsg)
    ∧ deleteBook demoBooks "book1" "mallory"
      = .error (throwErr 403 forbiddenMsg)
    ∧ step demoBooks (Op.modify "book1" "mallory" emptyUpdate) = demoBooks
    ∧ step demoBooks (Op.delete "book1" "mallory") = demoBooks :=
  nonOwner_modify_delete_forbidden demoBooks "book1" "mallory" emptyUpdate
    demoBook (by decide) (by decide)

/-- C10: the record written by modifyBook carries the path-parameter id:
applyUpdate forces the id field to paramId whatever the body holds, and
the result of modifyBook is unchanged by any client-sent _id in the
body, so a body _id can neither retarget the update nor change the
identity of the record. -/
theorem update_forces_path_id (books : List Book)
    (paramId authUserId : String) (body : UpdateBody) (x : Option String) :
    (∀ b : Book, (applyUpdate b body paramId).id = paramId)
    ∧ modifyBook books paramId authUserId { body with id := x }
      = modifyBook books paramId authUserId body :=
  ⟨fun _ => rfl, rfl⟩

/-- C6: createBook always persists exactly one new record and raises no
error; when the first client rating grade is a number in (0, 5] the
record is seeded with exactly that one rating by the authenticated user
and averageRating equals that grade; otherwise (no rating, a non-number
grade, a zero or an out-of-range grade) the record starts with empty
ratings and averageRating 0. -/
theorem create_seeds_initial_rating (books : List Book)
    (authUserId newId imageUrl : String) (body : CreateBody) :
    ((createBook books authUserId newId imageUrl body).1
      = books ++ [(createBook books authUserId newId imageUrl body).2])
    ∧ (∀ g : ℚ, body.ratings.head? = some (some g) → 0 < g → g ≤ 5 →
        (createBook books authUserId newId imageUrl body).2.ratings
          = [{ userId := authUserId, grade := g }]
        ∧ (createBook books authUserId newId imageUrl body).2.averageRating
          = g)
    ∧ ((∀ g : ℚ, body.ratings.head? = some (some g) → g ≤ 0 ∨ 5 < g) →
        (createBook books authUserId newId imageUrl body).2.ratings = []
        ∧ (createBook books authUserId newId imageUrl body).2.averageRating
          = 0) := by
  refine ⟨rfl, ?_, ?_⟩
  · intro g hg h0 h5
    cases hrs : body.ratings with
    | nil => rw [hrs] at hg; cases hg
    | cons r rest =>
      rw [hrs] at hg
      simp only [List.head?_cons, Option.some.injEq] at hg
      subst hg
      constructor <;> simp [createBook, hrs, h0, h5]
  · intro h
    cases hrs : body.ratings with
    | nil => constructor <;> simp [createBook, hrs]
    | cons r rest =>
      cases r with
      | none => constructor <;> simp [createBook, hrs]
      | some g =>
        have hbad : ¬ (0 < g ∧ g ≤ 5) := by
          rcases h g (by rw [hrs]; rfl) with hle | hlt
          · exact fun hc => absurd hc.1 (not_lt.mpr hle)
          · exact fun hc => absurd hc.2 (not_le.mpr hlt)
        constructor <;> simp [createBook, hrs, hbad]

/-- C6 witness: creating with initial grade 5 seeds exactly that rating
and that average; creating with no client rating yields empty ratings
and average 0. -/
theorem create_seeds_initial_rating_witness :
    ((createBook [] "owner1" "book9" "http://img"
        { plainCreate with ratings := [some 5] }).2.ratings
      = [{ userId := "owner1", grade := 5 }]
      ∧ (createBook [] "owner1" "book9" "http://img"
          { plainCreate with ratings := [some 5] }).2.averageRating = 5)
    ∧ ((createBook [] "owner1" "book9" "http://img" plainCreate).2.ratings
        = []
      ∧ (createBook [] "owner1" "book9" "http://img"
          plainCreate).2.averageRating = 0) := by
  constructor
  · exact (create_seeds_initial_rating [] "owner1" "book9" "http://img"
      { plainCreate with ratings := [some 5] }).2.1 5 rfl
      (by norm_num) (by norm_num)
  · exact (create_seeds_initial_rating [] "owner1" "book9" "http://img"
      plainCreate).2.2 (fun g hg => by simp [plainCreate] at hg)

/-- C5: rateBook rejects a submission with the 400 grade-domain error
exactly when the grade is not a number or lies outside the closed
interval [0, 5]; and a grade of exactly 0 from a user who has not yet
voted on an existing book is accepted as a vote. -/
theorem grade_domain_validation (books : List Book)
    (paramId authUserId : String) (rating : Option ℚ) :
    (rateBook books paramId authUserId rating
        = .error (throwErr 400 gradeMsg)
      ↔ (∀ g : ℚ, rating = some g → g < 0 ∨ g > 5))
    ∧ (∀ b : Book, findOne books paramId = some b →
        b.ratings.find? (fun r => r.userId == authUserId) = none →
        ∃ st bk, rateBook books paramId authUserId (some 0) = .ok (st, bk)
          ∧ { userId := authUserId, grade := (0 : ℚ) } ∈ bk.ratings) := by
  constructor
  · cases rating with
    | none =>
      constructor
      · intro _ g hg
        cases hg
      · intro _
        rfl
    | some g =>
      by_cases hg : g < 0 ∨ g > 5
      · constructor
        · intro _ gg hgg
          cases hgg
          exact hg
        · intro _
          simp [rateBook, hg]
      · constructor
        · intro hL
          exfalso
          simp only [rateBook, hg, if_false] at hL
          cases hfind : findOne books paramId with
          | none =>
            rw [hfind] at hL
            simp [throwErr] at hL
          | some b =>
            simp only [hfind] at hL
            by_cases hr :
                (b.ratings.find? (fun r => r.userId == authUserId)).isSome
            · rw [if_pos hr] at hL
              exact absurd hL (by decide)
            · rw [if_neg hr] at hL
              exact absurd hL (by simp)
        · intro hR
          exact absurd (hR g rfl) hg
  · intro b hfind hnone
    have hgrade : ¬ ((0 : ℚ) < 0 ∨ (0 : ℚ) > 5) := by norm_num
    have hr : (b.ratings.find? (fun r => r.userId == authUserId)).isSome
        = false := by
      rw [hnone]
      rfl
    refine ⟨replaceFirst books paramId
        ({ b with
          ratings := b.ratings ++ [{ userId := authUserId, grade := (0 : ℚ) }]
          averageRating := roundTenth (gradeSum
              (b.ratings ++ [{ userId := authUserId, grade := (0 : ℚ) }])
            / ((b.ratings
                ++ [({ userId := authUserId, grade := (0 : ℚ) } : Rating)]).length
              : ℚ)) } : Book),
      ({ b with
          ratings := b.ratings ++ [{ userId := authUserId, grade := (0 : ℚ) }]
          averageRating := roundTenth (gradeSum
              (b.ratings ++ [{ userId := authUserId, grade := (0 : ℚ) }])
            / ((b.ratings
                ++ [({ userId := authUserId, grade := (0 : ℚ) } : Rating)]).length
              : ℚ)) } : Book),
      ?_, ?_⟩
    · simp [rateBook, hgrade, hfind, hr]
    · exact List.mem_append_right _ (List.mem_singleton.mpr rfl)

/-- C5 witness: on the demo collection, grade 6 is rejected with the
400 grade-domain error, and grade 0 from a fresh user is accepted. -/
theorem grade_domain_validation_witness :
    rateBook demoBooks "book1" "bob" (some 6)
      = .error (throwErr 400 gradeMsg)
    ∧ (∃ st bk, rateBook demoBooks "book1" "bob" (some 0) = .ok (st, bk)
        ∧ { userId := "bob", grade := (0 : ℚ) } ∈ bk.ratings) := by
  constructor
  · exact (grade_domain_validation demoBooks "book1" "bob" (some 6)).1.mpr
      (fun g hg => by cases hg; norm_num)
  · exact (grade_domain_validation demoBooks "book1" "bob" (some 0)).2
      demoBook (by decide) (by decide)

/-- C7: the best-rating query returns at most 3 books, ordered by
averageRating in descending order; the stable sort it takes its prefix
from keeps books with equal averages in natural storage order; and on
stored averages [3, 4.5, 1, 5] it returns exactly the books with
averages [5, 4.5, 3]. -/
theorem bestrating_top3 :
    (∀ books : List Book, (getBestRatingBooks books).length ≤ 3)
    ∧ (∀ books : List Book,
        (getBestRatingBooks books).Pairwise byAverageDesc)
    ∧ (∀ (books : List Book) (a b : Book),
        a.averageRating = b.averageRating → [a, b].Sublist books →
        [a, b].Sublist (books.insertionSort byAverageDesc))
    ∧ getBestRatingBooks
        [demoAvg "bA" 3, demoAvg "bB" (9 / 2), demoAvg "bC" 1,
          demoAvg "bD" 5]
      = [demoAvg "bD" 5, demoAvg "bB" (9 / 2), demoAvg "bA" 3] := by
  refine ⟨?_, ?_, ?_, ?_⟩
  · intro books
    exact List.length_take_le 3 _
  · intro books
    exact List.Pairwise.sublist (List.take_sublist 3 _)
      (List.sorted_insertionSort byAverageDesc books)
  · intro books a b hab hsub
    exact List.pair_sublist_insertionSort (show byAverageDesc a b from hab.ge)
      hsub
  · norm_num [getBestRatingBooks, List.insertionSort, List.orderedInsert,
      byAverageDesc, demoAvg]

/-- C7 witness: the general bounds instantiated on the demo collection,
and stability instantiated on two books with equal averages. -/
theorem bestrating_top3_witness :
    (getBestRatingBooks demoBooks).length ≤ 3
    ∧ (getBestRatingBooks demoBooks).Pairwise byAverageDesc
    ∧ [demoAvg "x" 2, demoAvg "y" 2].Sublist
        (([demoAvg "x" 2, demoAvg "y" 2]).insertionSort byAverageDesc) :=
  ⟨bestrating_top3.1 demoBooks,
    bestrating_top3.2.1 demoBooks,
    bestrating_top3.2.2.1 [demoAvg "x" 2, demoAvg "y" 2]
      (demoAvg "x" 2) (demoAvg "y" 2) rfl (List.Sublist.refl _)⟩

/-- The modelled digest is injective: distinct passwords have distinct
hashes (the collision-freeness assumed of bcrypt). -/
theorem bcryptHash_inj (p q : String) (h : bcryptHash p = bcryptHash q) :
    p = q := by
  have hd := congrArg String.data h
  simp only [bcryptHash, String.data_append] at hd
  have hpq : p.data = q.data := List.append_cancel_left hd
  cases p
  cases q
  exact congrArg String.mk hpq

/-- C4 (amended): login never succeeds with a wrong password — when the
stored hash for the email is the digest of some original password and
the submitted password differs, login fails; and every login failure,
unknown email and wrong password alike, carries status 401. The two
failure messages differ, however, so the body reveals which case
occurred. -/
theorem login_wrong_password_rejected (users : List User)
    (email password original : String) (u : User)
    (hfind : users.find? (fun v => v.email == email) = some u)
    (hhash : u.password = bcryptHash original)
    (hne : password ≠ original) :
    login users email password = .error (throwErr 401 wrongPasswordMsg)
    ∧ (∀ (users2 : List User) (email2 pw2 : String) (e : JsError),
        login users2 email2 pw2 = .error e → e.statusCode = some 401) := by
  constructor
  · have hcmp : bcryptCompare password u.password = false := by
      unfold bcryptCompare
      rw [hhash]
      refine beq_eq_false_iff_ne.mpr ?_
      intro hcontra
      exact hne (bcryptHash_inj original password hcontra).symm
    simp [login, hfind, hcmp]
  · intro users2 email2 pw2 e he
    unfold login at he
    cases hf : users2.find? (fun v => v.email == email2) with
    | none =>
      simp only [hf] at he
      injection he with h
      subst h
      rfl
    | some u2 =>
      simp only [hf] at he
      by_cases hc : bcryptCompare pw2 u2.password = true
      · simp [hc] at he
      · simp only [Bool.not_eq_true] at hc
        simp [hc] at he
        subst he
        rfl

/-- C4 witness: the wrong-password rejection and the 401 statuses at
concrete inputs. -/
theorem login_wrong_password_rejected_witness :
    login demoUsers "alice@example.com" "wrongpass1"
      = .error (throwErr 401 wrongPasswordMsg)
    ∧ (throwErr 401 userNotFoundMsg).statusCode = some 401 :=
  ⟨(login_wrong_password_rejected demoUsers "alice@example.com" "wrongpass1"
      "correcthorse"
      { id := "u1", email := "alice@example.com"
        password := bcryptHash "correcthorse" }
      (by decide) rfl (by decide)).1,
    (login_wrong_password_rejected demoUsers "alice@example.com" "wrongpass1"
      "correcthorse"
      { id := "u1", email := "alice@example.com"
        password := bcryptHash "correcthorse" }
      (by decide) rfl (by decide)).2
      demoUsers "nobody@example.com" "whatever1"
      (throwErr 401 userNotFoundMsg) (by decide)⟩

/-- C4 counterexample: the observable responses for an unknown email and
for a known email with a wrong password are not identical — each body
names its own case — so the response does reveal which case occurred. -/
theorem login_error_responses_differ :
    loginResponse demoUsers "nobody@example.com" "whatever1"
      ≠ loginResponse demoUsers "alice@example.com" "wrongpass1"
    ∧ loginResponse demoUsers "nobody@example.com" "whatever1"
      = (401, userNotFoundMsg)
    ∧ loginResponse demoUsers "alice@example.com" "wrongpass1"
      = (401, wrongPasswordMsg) := by
  refine ⟨by decide, by decide, by decide⟩

/-- C8 (amended): signup with an already-present email fails with the
duplicate-key error — which carries no statusCode, so the boundary
middleware answers 500 rather than a 409/400 conflict — no record is
created by the failed attempt, every record a successful signup adds
carries the bcrypt hash, and the hash never equals the plaintext. -/
theorem signup_duplicate_email (users : List User)
    (newId email password : String)
    (hdup : users.any (fun u => u.email == email) = true) :
    signup users newId email password = .error duplicateKeyError
    ∧ (signupResponse users newId email password).1 = 500
    ∧ (∀ st, signup users newId email password ≠ .ok st)
    ∧ (∀ (users2 : List User) (newId2 email2 pw2 : String)
        (st : List User), signup users2 newId2 email2 pw2 = .ok st →
        st = users2
          ++ [{ id := newId2, email := email2, password := bcryptHash pw2 }])
    ∧ (∀ pw2 : String, bcryptHash pw2 ≠ pw2) := by
  have herr : signup users newId email password = .error duplicateKeyError := by
    simp [signup, hdup]
  refine ⟨herr, ?_, ?_, ?_, ?_⟩
  · simp [signupResponse, herr, errorMiddleware, duplicateKeyError]
  · intro st hst
    rw [herr] at hst
    cases hst
  · intro users2 newId2 email2 pw2 st hst
    unfold signup at hst
    by_cases hd : users2.any (fun u => u.email == email2) = true
    · simp [hd] at hst
    · simp only [Bool.not_eq_true] at hd
      simp [hd] at hst
      exact hst.symm
  · intro pw2 hcontra
    have hd := congrArg String.length hcontra
    simp only [bcryptHash, String.length_append] at hd
    have h7 : ("$2b$10$" : String).length = 7 := rfl
    omega

/-- C8 witness: the duplicate-email failure at a concrete store, and the
hash/plaintext separation at a concrete password. -/
theorem signup_duplicate_email_witness :
    signup demoUsers "u2" "alice@example.com" "hunter2abc"
      = .error duplicateKeyError
    ∧ (signupResponse demoUsers "u2" "alice@example.com" "hunter2abc").1
      = 500
    ∧ bcryptHash "hunter2abc" ≠ "hunter2abc" :=
  ⟨(signup_duplicate_email demoUsers "u2" "alice@example.com" "hunter2abc"
      (by decide)).1,
    (signup_duplicate_email demoUsers "u2" "alice@example.com" "hunter2abc"
      (by decide)).2.1,
    (signup_duplicate_email demoUsers "u2" "alice@example.com" "hunter2abc"
      (by decide)).2.2.2.2 "hunter2abc"⟩

/-- C8 counterexample: the duplicate-email response on a concrete store
is 500 — not the 409 or 400 conflict class the claim requires. -/
theorem signup_duplicate_email_not_conflict :
    (signupResponse demoUsers "u2" "alice@example.com" "newpass123").1 = 500
    ∧ (signupResponse demoUsers "u2" "alice@example.com" "newpass123").1
      ≠ 409
    ∧ (signupResponse demoUsers "u2" "alice@example.com" "newpass123").1
      ≠ 400 := by
  refine ⟨by decide, by decide, by decide⟩

/-- C9 (amended): the boundary middleware answers with the carried
statusCode of every error thrown with one, and with 500 when no
statusCode is attached; the body always carries the error's own message
— the generic body appears only when the error's message is empty, so a
non-empty internal message is echoed to the client rather than hidden. -/
theorem error_middleware_maps_status (c : Nat) (m : String) (e : JsError)
    (hc : c ≠ 0) (hnone : e.statusCode = none) :
    errorMiddleware (throwErr c m)
      = (c, if m = "" then "Erreur serveur" else m)
    ∧ (errorMiddleware e).1 = 500
    ∧ (errorMiddleware e).2
      = (if e.message = "" then "Erreur serveur" else e.message) := by
  refine ⟨?_, ?_, ?_⟩ <;> simp [errorMiddleware, throwErr, hc, hnone]

/-- C9 witness: the middleware at a thrown 404 and at a bare error with
no statusCode. -/
theorem error_middleware_maps_status_witness :
    errorMiddleware (throwErr 404 notFoundMsg)
      = (404, if notFoundMsg = "" then "Erreur serveur" else notFoundMsg)
    ∧ (errorMiddleware { statusCode := none, message := "boom" }).1 = 500
    ∧ (errorMiddleware { statusCode := none, message := "boom" }).2
      = (if ({ statusCode := none, message := "boom" } : JsError).message
            = "" then "Erreur serveur"
          else ({ statusCode := none, message := "boom" } : JsError).message) :=
  ⟨(error_middleware_maps_status 404 notFoundMsg
      { statusCode := none, message := "boom" } (by decide) rfl).1,
    (error_middleware_maps_status 404 notFoundMsg
      { statusCode := none, message := "boom" } (by decide) rfl).2.1,
    (error_middleware_maps_status 404 notFoundMsg
      { statusCode := none, message := "boom" } (by decide) rfl).2.2⟩

/-- C9 counterexample: an error with no statusCode and an internal
message is answered as (500, that internal message) — the response is
not the generic server-error body, so the internal detail is exposed to
the client. -/
theorem error_middleware_leaks_message :
    errorMiddleware
        { statusCode := none, message := "ENOENT: no such file, open" }
      = (500, "ENOENT: no such file, open")
    ∧ errorMiddleware
        { statusCode := none, message := "ENOENT: no such file, open" }
      ≠ (500, "Erreur serveur") := by
  refine ⟨by decide, by decide⟩

/-- Membership in replaceFirst: every element of the written collection
is an old element or the written record. -/
theorem mem_replaceFirst {books : List Book} {id : String} {b x : Book}
    (hx : x ∈ replaceFirst books id b) : x ∈ books ∨ x = b := by
  induction books with
  | nil => simp [replaceFirst] at hx
  | cons y rest ih =>
    simp only [replaceFirst] at hx
    by_cases hy : (y.id == id) = true
    · rw [if_pos hy] at hx
      rcases List.mem_cons.mp hx with h | h
      · exact Or.inr h
      · exact Or.inl (List.mem_cons_of_mem _ h)
    · rw [if_neg hy] at hx
      rcases List.mem_cons.mp hx with h | h
      · exact Or.inl (List.mem_cons.mpr (Or.inl h))
      · rcases ih h with h2 | h2
        · exact Or.inl (List.mem_cons_of_mem _ h2)
        · exact Or.inr h2

/-- roundTenth fixes exact tenths. -/
theorem roundTenth_of_tenth {g : ℚ} (h : isTenth g) : roundTenth g = g := by
  obtain ⟨n, rfl⟩ := h
  unfold roundTenth mathRound
  have h10 : (n : ℚ) / 10 * 10 = (n : ℚ) := by
    field_simp
  rw [h10]
  have hfl : ⌊(n : ℚ) + 1 / 2⌋ = n := by
    rw [add_comm, Int.floor_add_int]
    norm_num
  rw [hfl]

/-- Inversion of a successful modifyBook. -/
theorem modifyBook_ok {books : List Book} {pid auth : String}
    {body : UpdateBody} {st : List Book}
    (h : modifyBook books pid auth body = .ok st) :
    ∃ bk, findOne books pid = some bk ∧ bk.userId = auth
      ∧ st = replaceFirst books pid (applyUpdate bk body pid) := by
  unfold modifyBook at h
  cases hf : findOne books pid with
  | none => simp [hf] at h
  | some bk =>
    simp only [hf] at h
    by_cases ho : bk.userId = auth
    · refine ⟨bk, rfl, ho, ?_⟩
      simp only [ho, ne_eq, not_true_eq_false, if_false, Except.ok.injEq] at h
      exact h.symm
    · simp [ho] at h

/-- Inversion of a successful deleteBook. -/
theorem deleteBook_ok {books : List Book} {pid auth : String}
    {st : List Book} (h : deleteBook books pid auth = .ok st) :
    st = books.eraseP (fun b => b.id == pid) := by
  unfold deleteBook at h
  cases hf : findOne books pid with
  | none => simp [hf] at h
  | some bk =>
    simp only [hf] at h
    by_cases ho : bk.userId = auth
    · simp only [ho, ne_eq, not_true_eq_false, if_false, Except.ok.injEq] at h
      exact h.symm
    · simp [ho] at h

/-- Inversion of a successful rateBook. -/
theorem rateBook_ok {books : List Book} {pid auth : String} {r : Option ℚ}
    {st : List Book} {bk : Book}
    (h : rateBook books pid auth r = .ok (st, bk)) :
    ∃ g b0, r = some g
      ∧ findOne books pid = some b0
      ∧ (b0.ratings.find? (fun rr => rr.userId == auth)).isSome = false
      ∧ bk = { b0 with
          ratings := b0.ratings ++ [{ userId := auth, grade := g }]
          averageRating := roundTenth (gradeSum
              (b0.ratings ++ [{ userId := auth, grade := g }])
            / ((b0.ratings
                ++ [({ userId := auth, grade := g } : Rating)]).length : ℚ)) }
      ∧ st = replaceFirst books pid bk := by
  cases r with
  | none => simp [rateBook] at h
  | some g =>
    simp only [rateBook] at h
    by_cases hg : g < 0 ∨ g > 5
    · simp [hg] at h
    · rw [if_neg hg] at h
      cases hf : findOne books pid with
      | none => simp [hf] at h
      | some b0 =>
        simp only [hf] at h
        by_cases hr :
            (b0.ratings.find? (fun rr => rr.userId == auth)).isSome = true
        · simp [hr] at h
        · simp only [Bool.not_eq_true] at hr
          simp only [hr, Bool.false_eq_true, if_false, Except.ok.injEq,
            Prod.mk.injEq] at h
          exact ⟨g, b0, rfl, rfl, hr, h.2.symm, by rw [← h.2, h.1]⟩

/-- Every operation allowed by avgSafe preserves the average invariant
across one step of the store. -/
theorem avgSafe_step {books : List Book} {op : Op}
    (hinv : ∀ b ∈ books, avgInvariant b) (hop : avgSafe op) :
    ∀ b ∈ step books op, avgInvariant b := by
  cases op with
  | create auth newId img body =>
    intro b hb
    simp only [step, createBook] at hb
    rw [List.mem_append] at hb
    rcases hb with hb | hb
    · exact hinv b hb
    · simp only [List.mem_singleton] at hb
      subst hb
      rcases hrs : body.ratings with _ | ⟨g?, rest⟩
      · simp [avgInvariant, hrs]
      · rcases g? with _ | g
        · simp [avgInvariant, hrs]
        · by_cases hg : 0 < g ∧ g ≤ 5
          · have ht : isTenth g := hop g (by rw [hrs]; rfl)
            simp [avgInvariant, hrs, hg, gradeSum, roundTenth_of_tenth ht]
          · simp [avgInvariant, hrs, hg]
  | modify pid auth body =>
    intro b hb
    simp only [step] at hb
    cases hmod : modifyBook books pid auth body with
    | error e =>
      simp only [hmod] at hb
      exact hinv b hb
    | ok st =>
      simp only [hmod] at hb
      obtain ⟨bk, hf, ho, hst⟩ := modifyBook_ok hmod
      subst hst
      rcases mem_replaceFirst hb with hmem | hbnew
      · exact hinv b hmem
      · subst hbnew
        have hbk := hinv bk (List.mem_of_find?_eq_some hf)
        obtain ⟨hrn, han⟩ := hop
        simpa [avgInvariant, applyUpdate, hrn, han] using hbk
  | rate pid auth r =>
    intro b hb
    simp only [step] at hb
    cases hrt : rateBook books pid auth r with
    | error e =>
      simp only [hrt] at hb
      exact hinv b hb
    | ok p =>
      obtain ⟨st, bk⟩ := p
      simp only [hrt] at hb
      obtain ⟨g, b0, hrg, hf, hnr, hbk, hst⟩ := rateBook_ok hrt
      subst hst
      subst hbk
      rcases mem_replaceFirst hb with hmem | hbnew
      · exact hinv b hmem
      · subst hbnew
        simp [avgInvariant]
  | delete pid auth =>
    intro b hb
    simp only [step] at hb
    cases hdel : deleteBook books pid auth with
    | error e =>
      simp only [hdel] at hb
      exact hinv b hb
    | ok st =>
      simp only [hdel] at hb
      rw [deleteBook_ok hdel] at hb
      exact hinv b ((List.eraseP_sublist _).subset hb)

/-- Every operation allowed by ratersSafe preserves rater uniqueness
across one step of the store. -/
theorem ratersSafe_step {books : List Book} {op : Op}
    (hinv : ∀ b ∈ books, (b.ratings.map Rating.userId).Nodup)
    (hop : ratersSafe op) :
    ∀ b ∈ step books op, (b.ratings.map Rating.userId).Nodup := by
  cases op with
  | create auth newId img body =>
    intro b hb
    simp only [step, createBook] at hb
    rw [List.mem_append] at hb
    rcases hb with hb | hb
    · exact hinv b hb
    · simp only [List.mem_singleton] at hb
      subst hb
      rcases hrs : body.ratings with _ | ⟨g?, rest⟩
      · simp [hrs]
      · rcases g? with _ | g
        · simp [hrs]
        · by_cases hg : 0 < g ∧ g ≤ 5
          · simp [hrs, hg]
          · simp [hrs, hg]
  | modify pid auth body =>
    intro b hb
    simp only [step] at hb
    cases hmod : modifyBook books pid auth body with
    | error e =>
      simp only [hmod] at hb
      exact hinv b hb
    | ok st =>
      simp only [hmod] at hb
      obtain ⟨bk, hf, ho, hst⟩ := modifyBook_ok hmod
      subst hst
      rcases mem_replaceFirst hb with hmem | hbnew
      · exact hinv b hmem
      · subst hbnew
        have hbk := hinv bk (List.mem_of_find?_eq_some hf)
        have hrn : body.ratings = none := hop
        simpa [applyUpdate, hrn] using hbk
  | rate pid auth r =>
    intro b hb
    simp only [step] at hb
    cases hrt : rateBook books pid auth r with
    | error e =>
      simp only [hrt] at hb
      exact hinv b hb
    | ok p =>
      obtain ⟨st, bk⟩ := p
      simp only [hrt] at hb
      obtain ⟨g, b0, hrg, hf, hnr, hbk, hst⟩ := rateBook_ok hrt
      subst hst
      subst hbk
      rcases mem_replaceFirst hb with hmem | hbnew
      · exact hinv b hmem
      · subst hbnew
        have hb0 := hinv b0 (List.mem_of_find?_eq_some hf)
        have hnone : b0.ratings.find? (fun rr => rr.userId == auth)
            = none := by
          cases hcase : b0.ratings.find? (fun rr => rr.userId == auth) with
          | none => rfl
          | some x =>
            rw [hcase] at hnr
            simp at hnr
        have hfresh : ∀ rr ∈ b0.ratings, rr.userId ≠ auth := by
          intro rr hrr
          have hprop := List.find?_eq_none.mp hnone rr hrr
          simpa using hprop
        simp only [List.map_append, List.map_cons, List.map_nil]
        rw [List.nodup_append]
        refine ⟨hb0, List.nodup_singleton _, ?_⟩
        intro a ha ha2
        simp only [List.mem_singleton] at ha2
        subst ha2
        rcases List.mem_map.mp ha with ⟨rr, hrr, hrr2⟩
        exact hfresh rr hrr hrr2
  | delete pid auth =>
    intro b hb
    simp only [step] at hb
    cases hdel : deleteBook books pid auth with
    | error e =>
      simp only [hdel] at hb
      exact hinv b hb
    | ok st =>
      simp only [hdel] at hb
      rw [deleteBook_ok hdel] at hb
      exact hinv b ((List.eraseP_sublist _).subset hb)

/-- C1 (amended): after any sequence of create, update and rating
operations in which every seeded creation grade is an exact tenth and
no update body carries a ratings or averageRating field, every
reachable record satisfies the average invariant — averageRating equals
the one-decimal rounding of the mean of the grades, and 0 when ratings
is empty. (Without those restrictions the claim fails: modifyBook
writes client-sent ratings/averageRating through unchecked and
createBook stores the seed grade unrounded — see the counterexample.) -/
theorem average_invariant (ops : List Op)
    (hops : ∀ op ∈ ops, avgSafe op) :
    ∀ b ∈ run ops, avgInvariant b := by
  have main : ∀ (l : List Op) (start : List Book),
      (∀ op ∈ l, avgSafe op) → (∀ b ∈ start, avgInvariant b) →
      ∀ b ∈ l.foldl step start, avgInvariant b := by
    intro l
    induction l with
    | nil =>
      intro start _ hstart
      simpa using hstart
    | cons op rest ih =>
      intro start hl hstart
      simp only [List.foldl_cons]
      exact ih (step start op)
        (fun o ho => hl o (List.mem_cons_of_mem _ ho))
        (avgSafe_step hstart (hl op (List.mem_cons_self _ _)))
  exact main ops [] hops (by simp)

/-- C1 witness: the invariant at the record reached by a safe concrete
run — a creation seeded with grade 2. -/
theorem average_invariant_witness :
    avgInvariant
      { id := "bookZ", userId := "owner1", title := "Titre"
        author := "Auteur", imageUrl := "http://img", year := 2000
        genre := "Genre", ratings := [{ userId := "owner1", grade := 2 }]
        averageRating := 2 } :=
  average_invariant
    [Op.create "owner1" "bookZ" "http://img"
      { plainCreate with ratings := [some 2] }]
    (by
      intro op hop
      simp only [List.mem_singleton] at hop
      subst hop
      intro g hg
      simp only [plainCreate, List.head?_cons, Option.some.injEq] at hg
      subst hg
      exact ⟨20, by norm_num⟩)
    _ (by decide)

/-- C1 counterexample: the claim as stated is false — the concrete
two-operation run injectAvgOps (create, then an owner update whose body
carries averageRating 3) reaches a record with empty ratings and
averageRating 3 instead of 0. -/
theorem average_invariant_fails :
    injectAvgBook ∈ run injectAvgOps
    ∧ ¬ avgInvariant injectAvgBook := by
  refine ⟨by decide, by decide⟩

/-- C2 (amended): a rating submission from a user already present in a
book's ratings is rejected with a 400-class error and the store is
unchanged by the attempt; consequently, along any run whose update
bodies never carry a ratings field, no reachable record holds two
ratings with the same userId. (An update body carrying a ratings field
can inject duplicates — see the counterexample.) -/
theorem second_rating_rejected (books : List Book)
    (paramId authUserId : String) (rating : Option ℚ) (b : Book)
    (hfind : findOne books paramId = some b)
    (hrated : (b.ratings.find? (fun r => r.userId == authUserId)).isSome
      = true) :
    (∃ e, rateBook books paramId authUserId rating = .error e
      ∧ e.statusCode = some 400)
    ∧ step books (Op.rate paramId authUserId rating) = books
    ∧ (∀ ops : List Op, (∀ op ∈ ops, ratersSafe op) →
        ∀ bk ∈ run ops, (bk.ratings.map Rating.userId).Nodup) := by
  have herr : ∃ e, rateBook books paramId authUserId rating = .error e
      ∧ e.statusCode = some 400 := by
    cases rating with
    | none => exact ⟨throwErr 400 gradeMsg, rfl, rfl⟩
    | some g =>
      by_cases hg : g < 0 ∨ g > 5
      · refine ⟨throwErr 400 gradeMsg, ?_, rfl⟩
        simp [rateBook, hg]
      · refine ⟨throwErr 400 alreadyRatedMsg, ?_, rfl⟩
        simp [rateBook, hg, hfind, hrated]
  refine ⟨herr, ?_, ?_⟩
  · obtain ⟨e, he, _⟩ := herr
    simp [step, he]
  · intro ops hops
    have main : ∀ (l : List Op) (start : List Book),
        (∀ op ∈ l, ratersSafe op) →
        (∀ bb ∈ start, (bb.ratings.map Rating.userId).Nodup) →
        ∀ bb ∈ l.foldl step start,
          (bb.ratings.map Rating.userId).Nodup := by
      intro l
      induction l with
      | nil =>
        intro start _ hstart
        simpa using hstart
      | cons op rest ih =>
        intro start hl hstart
        simp only [List.foldl_cons]
        exact ih (step start op)
          (fun o ho => hl o (List.mem_cons_of_mem _ ho))
          (ratersSafe_step hstart (hl op (List.mem_cons_self _ _)))
    exact main ops [] hops (by simp)

/-- C2 witness: the already-rated rejection at the demo book, whose
ratings already hold a vote by alice, leaves the store unchanged. -/
theorem second_rating_rejected_witness :
    (∃ e, rateBook demoBooks "book1" "alice" (some 3) = .error e
      ∧ e.statusCode = some 400)
    ∧ step demoBooks (Op.rate "book1" "alice" (some 3)) = demoBooks :=
  ⟨(second_rating_rejected demoBooks "book1" "alice" (some 3) demoBook
      (by decide) (by decide)).1,
    (second_rating_rejected demoBooks "book1" "alice" (some 3) demoBook
      (by decide) (by decide)).2.1⟩

/-- C2 counterexample: the uniqueness part of the claim as stated is
false — the concrete run injectDupOps (create, then an owner update
whose body carries two ratings by the same user) reaches a record whose
ratings hold the same userId twice. -/
theorem raters_unique_fails :
    injectDupBook ∈ run injectDupOps
    ∧ ¬ ((injectDupBook.ratings.map Rating.userId).Nodup) := by
  refine ⟨by decide, by decide⟩

end P7
